import Mathlib

/-
Verification of the sigrok KS0107/KS0108 parallel LCD protocol decoder
(src/sigrok/unknown_lcd/pd.py) against its design specification.

Modelling choices:
- a bus sample is a record of boolean channel levels in the order the
  decoder unpacks them: cs1, cs2, clk, rw, e, d0..d7;
- the blocking wait primitive of the host framework is modelled as a scan
  over a finite list of samples, with the previous sample kept for edge
  conditions; the sample number is the position in the list;
- Python float arithmetic is modelled by exact rationals, and round(x, 5)
  by exact rounding to a multiple of 1/100000 (the two differ only on
  exact halfway values, which never arise at the sample rates offered by
  the decoder options);
- the SDL pixel surface is a function grid, and renderer.draw_point is a
  pointwise update;
- an exception that propagates out of the decode loop (such as the
  ValueError raised by pages.index on an unknown page byte) is modelled
  by an aborted flag on the run result: the loop performs no further
  iteration and the pixel grid is left as it was.
-/

set_option maxRecDepth 40000

section LCDDecoder

attribute [local semireducible] Rat.sub Rat.mul Rat.inv Rat.ofScientific

/-- One bus sample: the channel levels in the order the decoder unpacks
them from self.wait, namely cs1, cs2, clk, rw, e, d0..d7. -/
structure Sample where
  cs1 : Bool
  cs2 : Bool
  clk : Bool
  rw : Bool
  e : Bool
  d0 : Bool
  d1 : Bool
  d2 : Bool
  d3 : Bool
  d4 : Bool
  d5 : Bool
  d6 : Bool
  d7 : Bool
deriving DecidableEq, Repr

/-- The external srdhelper bitpack: bit i of the result is bits[i]
(least significant bit first). -/
def bitpack (bits : List Bool) : ℕ :=
  bits.enum.foldl (fun acc ib => acc + (if ib.2 then 2 ^ ib.1 else 0)) 0

/-- The byte bitpack((d0, ..., d7)) packed from the data lines of a sample. -/
def sampleByte (s : Sample) : ℕ :=
  bitpack [s.d0, s.d1, s.d2, s.d3, s.d4, s.d5, s.d6, s.d7]

/-- Python round(x, 5), modelled as exact decimal rounding. -/
def round5 (x : ℚ) : ℚ := (round (x * 100000) : ℤ) / 100000

/-- Decoder.get_time (pd.py line 148): sample index to a time in
milliseconds, rounded to five decimals; sample_rate is in Hz. -/
def get_time (rate : ℕ) (n : ℕ) : ℚ := round5 (1 / (rate : ℚ) * 1000 * n)

/-- The quantity the decode loop actually compares against its thresholds:
both endpoint times from get_time (already milliseconds) are multiplied by
a further 1000 before subtracting (pd.py lines 248 to 249 and 262 to 263). -/
def delta_code (rate : ℕ) (a b : ℕ) : ℚ :=
  get_time rate b * 1000 - get_time rate a * 1000

/-- The VERIFY START acceptance test (pd.py line 250). -/
def classify_start (d : ℚ) : Bool := decide (d < 2.40)

/-- The FIND NEXT START CLK acceptance test (pd.py line 265): both
comparisons are strict. -/
def classify_clock_period (d : ℚ) : Bool := decide (3.7 < d) && decide (d < 4.2)

/-- Modelled from the spec (section 3, TimeDelta): the derived quantity
(sample_index_b - sample_index_a) times sample_period, in milliseconds;
sample_period is 1/sample_rate seconds, hence 1000/rate milliseconds. -/
def spec_delta_ms (rate : ℕ) (a b : ℕ) : ℚ := ((b : ℚ) - (a : ℚ)) * (1000 / (rate : ℚ))

/-- The page-code list built in Decoder.reset (pd.py lines 142 to 143):
the integers 176..183. -/
def pages : List ℕ := List.range' 176 8

/-- Python list.index as a total function: index of the first occurrence,
none when the value is absent (a ValueError in the source). -/
def listIndex (x : ℕ) : List ℕ → Option ℕ
  | [] => none
  | a :: t => if a = x then some 0 else (listIndex x t).map (fun k => k + 1)

/-- The monochrome pixel surface; true is a lit (white) pixel. -/
abbrev Grid := ℕ → ℕ → Bool

def blankGrid : Grid := fun _ _ => false

/-- renderer.draw_point at (x, y). -/
def draw_point (g : Grid) (x y : ℕ) (v : Bool) : Grid :=
  fun a b => if a = x ∧ b = y then v else g a b

/-- The inner row loop of Decoder.updateLCD for one payload byte
(pd.py lines 187 to 193): the 8-bit string of the byte is reversed, so
row y of the band receives bit y of the byte (the least significant bit
lands on the top row of the band). -/
def drawByte (g : Grid) (x page b : ℕ) : Grid :=
  (List.range 8).foldl (fun g2 y => draw_point g2 x (y + 8 * page) (b.testBit y)) g

/-- The column loop of Decoder.updateLCD over the enumerated payload:
column i of the selected device half receives byte i. -/
def renderBytes (g : Grid) (cs1_device : Bool) (page : ℕ) (l : List (ℕ × ℕ)) : Grid :=
  l.foldl (fun g2 ib => drawByte g2 (ib.1 + (if cs1_device then 0 else 132)) page ib.2) g

/-- Decoder.updateLCD (pd.py lines 182 to 199): page lookup of command[0]
in pages (none models the uncaught ValueError, raised before any pixel is
written), then all payload columns are drawn and the window refreshed. -/
def updateLCD (g : Grid) (cs1_device : Bool) (command bytes : List ℕ) : Option Grid :=
  match command.head? with
  | none => none
  | some c0 =>
    match listIndex c0 pages with
    | none => none
    | some page => some (renderBytes g cs1_device page bytes.enum)

/-- The four string states of Decoder.decode. -/
inductive Phase where
  | FIND_START
  | VERIFY_START
  | FIND_NEXT_START_CLK
  | READ_DATA
deriving DecidableEq, Repr

/-- The mutable locals of the decode loop that persist across states. -/
structure DecSt where
  phase : Phase
  clk_cnt : ℕ
  command : List ℕ
  data_bytes : List ℕ
  potential_start : ℕ
  start_clk_samplenum : ℕ
deriving DecidableEq, Repr

def initSt : DecSt := ⟨Phase.FIND_START, 0, [], [], 0, 0⟩

/-- The assignments executed at the top of the FIND START branch, before
its wait (pd.py lines 237 to 238): clk_cnt = 0 and command = []. -/
def entryActions (st : DecSt) : DecSt :=
  match st.phase with
  | Phase.FIND_START => { st with clk_cnt := 0, command := [] }
  | _ => st

/-- wait([{1: h, 0: f}, {0: h, 1: f}]) of FIND START: cs1 falls while cs2
is high, or cs2 falls while cs1 is high. -/
def matchStart (prev cur : Sample) : Bool :=
  (cur.cs2 && (prev.cs1 && !cur.cs1)) || (cur.cs1 && (prev.cs2 && !cur.cs2))

/-- wait([{1: h, 0: l, 2: r}, {0: h, 1: l, 2: r}]) of the three later
states: a rising clock edge while exactly one chip select is high. -/
def matchClk (prev cur : Sample) : Bool :=
  ((cur.cs2 && !cur.cs1) || (cur.cs1 && !cur.cs2)) && (!prev.clk && cur.clk)

/-- The wait condition used by each state of the loop. -/
def condOf (p : Phase) : Sample → Sample → Bool :=
  match p with
  | Phase.FIND_START => matchStart
  | _ => matchClk

/-- The wait primitive: scan the remaining input for the first sample
matching the condition against its predecessor; returns the matched
sample, its sample number, and the samples after it. -/
def waitM (f : Sample → Sample → Bool) : Sample → ℕ → List Sample →
    Option (Sample × ℕ × List Sample)
  | _, _, [] => none
  | prev, idx, s :: rest =>
    if f prev s then some (s, idx, rest) else waitM f s (idx + 1) rest

/-- The per-state processing after the wait returns (pd.py lines 240 to
288), given the matched sample s at sample number i: the updated state
and, when the 132nd payload byte just arrived, the updateLCD invocation
(cs1_device, command, data_bytes).  Note that on frame completion the
phase field is still READ DATA: the source assigns FIND START only after
updateLCD has returned without raising. -/
def afterWait (rate : ℕ) (st : DecSt) (s : Sample) (i : ℕ) :
    DecSt × Option (Bool × List ℕ × List ℕ) :=
  match st.phase with
  | Phase.FIND_START =>
    ({ st with phase := Phase.VERIFY_START, potential_start := i }, none)
  | Phase.VERIFY_START =>
    if classify_start (delta_code rate st.potential_start i) then
      ({ st with phase := Phase.FIND_NEXT_START_CLK,
                 command := st.command ++ [sampleByte s],
                 start_clk_samplenum := i,
                 clk_cnt := st.clk_cnt + 1 }, none)
    else
      ({ st with phase := Phase.FIND_START }, none)
  | Phase.FIND_NEXT_START_CLK =>
    let st1 :=
      if classify_clock_period (delta_code rate st.start_clk_samplenum i) then
        { st with start_clk_samplenum := i,
                  command := st.command ++ [sampleByte s],
                  clk_cnt := st.clk_cnt + 1 }
      else
        { st with phase := Phase.FIND_START }
    if st1.clk_cnt == 3 then
      ({ st1 with phase := Phase.READ_DATA, data_bytes := [] }, none)
    else
      (st1, none)
  | Phase.READ_DATA =>
    let db := st.data_bytes ++ [sampleByte s]
    if db.length == 132 then
      ({ st with data_bytes := db }, some (s.cs2 && !s.cs1, st.command, db))
    else
      ({ st with data_bytes := db }, none)

/-- The result of running the decode loop over a finite sample stream. -/
structure RunResult where
  st : DecSt
  grid : Grid
  renders : List (Bool × List ℕ × List ℕ)
  aborted : Bool

/-- The decode loop: each iteration performs the FIND START entry actions
when applicable, waits for the condition of the state, and processes the
matched sample; a render request executes updateLCD, and an unknown page
code (none) aborts the loop with the grid unchanged, as the uncaught
ValueError does in the source.  The fuel argument only bounds the number
of loop iterations; the stream itself ends the run via the wait. -/
def runLoop (rate : ℕ) :
    ℕ → DecSt → Sample → ℕ → List Sample → Grid →
    List (Bool × List ℕ × List ℕ) → RunResult
  | 0, st, _, _, _, g, rs => ⟨st, g, rs, false⟩
  | n + 1, st, prev, idx, inp, g, rs =>
    let st0 := entryActions st
    match waitM (condOf st0.phase) prev idx inp with
    | none => ⟨st0, g, rs, false⟩
    | some (s, i, rest) =>
      match afterWait rate st0 s i with
      | (st1, none) => runLoop rate n st1 s (i + 1) rest g rs
      | (st1, some req) =>
        match updateLCD g req.1 req.2.1 req.2.2 with
        | none => ⟨st1, g, rs ++ [req], true⟩
        | some g2 =>
          runLoop rate n { st1 with phase := Phase.FIND_START } s (i + 1) rest g2 (rs ++ [req])

/-- All channels low, the state of the bus before the capture starts. -/
def lowSample : Sample :=
  ⟨false, false, false, false, false, false, false, false, false, false, false, false, false⟩

/-- Run the decoder from its reset state over a finite capture. -/
def decodeRun (rate : ℕ) (inp : List Sample) : RunResult :=
  runLoop rate (inp.length + 1) initSt lowSample 0 inp blankGrid []

/-- Build a sample from chip selects, clock and a data byte; rw and e are
low. -/
def mkS (c1 c2 ck : Bool) (d : ℕ) : Sample :=
  ⟨c1, c2, ck, false, false,
   d.testBit 0, d.testBit 1, d.testBit 2, d.testBit 3,
   d.testBit 4, d.testBit 5, d.testBit 6, d.testBit 7⟩

/-- Device 2 selected (cs2 high, cs1 low). -/
def csA (ck : Bool) (d : ℕ) : Sample := mkS false true ck d

/-- Device 1 selected (cs1 high, cs2 low). -/
def csB (ck : Bool) (d : ℕ) : Sample := mkS true false ck d

/-- Both chip selects low: matches no wait condition. -/
def filler : Sample := mkS false false false 0

/-- A start edge followed by three command clocks at sample rate 1 MHz:
start at index 1, clocks at indices 2, 6, 10, so the compared deltas are
1.0, 4.0 and 4.0 in the units of the code. -/
def cmdSection (firstByte : ℕ) : List Sample :=
  [csB false 0, csA false 0, csA true firstByte, csA false 0, filler, filler,
   csA true 0, csA false 0, filler, filler, csA true 0]

/-- One payload clock cycle on device 2: clock low then a rising edge. -/
def dataPairA : List Sample := [csA false 0, csA true 0]

/-- A complete valid frame: page byte 176, 132 zero payload bytes. -/
def fullTrace : List Sample :=
  cmdSection 176 ++ List.flatten (List.replicate 132 dataPairA)

/-- The same frame cut short: only 131 payload clock edges. -/
def trace131 : List Sample :=
  cmdSection 176 ++ List.flatten (List.replicate 131 dataPairA)

/-- A frame whose confirmed command begins with page byte 0, which is
outside the page-code set. -/
def badPageTrace : List Sample :=
  cmdSection 0 ++ List.flatten (List.replicate 132 dataPairA)

/-- One payload clock cycle on device 1. -/
def dataPairB : List Sample := [csB false 0, csB true 0]

/-- A frame that starts and stays on device 1 (cs1 high, cs2 low) for the
start edge, all three command clocks and the first 131 payload edges, and
whose final (132nd) payload edge arrives with the opposite chip-select
pattern. -/
def mixedTrace : List Sample :=
  [mkS true true false 0, csB false 0, csB true 176, csB false 0, filler, filler,
   csB true 0, csB false 0, filler, filler, csB true 0]
  ++ List.flatten (List.replicate 131 dataPairB) ++ [csB false 0, csA true 0]

/-- Two samples agree on every channel the decoder reads: the chip
selects, the clock and the eight data lines (everything except rw, e). -/
def eqvSample (s t : Sample) : Prop :=
  s.cs1 = t.cs1 ∧ s.cs2 = t.cs2 ∧ s.clk = t.clk ∧
  s.d0 = t.d0 ∧ s.d1 = t.d1 ∧ s.d2 = t.d2 ∧ s.d3 = t.d3 ∧
  s.d4 = t.d4 ∧ s.d5 = t.d5 ∧ s.d6 = t.d6 ∧ s.d7 = t.d7

/-- A sample that differs from filler only on the rw and e channels. -/
def fillerRwE : Sample :=
  ⟨false, false, false, true, true, false, false, false, false, false, false, false, false⟩

/-- A reachable FIND NEXT START CLK state: one command byte collected,
clock reference at sample 0. -/
def stD : DecSt := ⟨Phase.FIND_NEXT_START_CLK, 1, [176], [], 0, 0⟩

/-- A reachable VERIFY START state: candidate start at sample 1, no bytes
collected yet. -/
def stV : DecSt := ⟨Phase.VERIFY_START, 0, [], [], 1, 0⟩

/-- A reachable READ DATA state: full command collected, 131 of the 132
payload bytes buffered. -/
def stR : DecSt := ⟨Phase.READ_DATA, 3, [176, 0, 0], List.replicate 131 0, 0, 0⟩

/-- The render request issued when the 132nd payload byte arrives in stR
on a device-2 edge. -/
def c5req : Bool × List ℕ × List ℕ := (true, [176, 0, 0], List.replicate 131 0 ++ [0])

/-- A 132-byte payload whose first byte has only bit 0 set. -/
def c4bytes : List ℕ := 1 :: List.replicate 131 0

/-- The top and bottom pixels of the first column of the band rendered
from c4bytes on page 0, device given by a true selector. -/
def c4probe : Option (Bool × Bool) :=
  (updateLCD blankGrid true [176, 0, 0] c4bytes).map (fun G => (G 0 0, G 0 7))

/-- A 132-byte payload of bytes 129 (bits 0 and 7 set). -/
def c4wbytes : List ℕ := List.replicate 132 129

/-- draw_point touches no coordinate other than its target column. -/
theorem drawByte_ne (g : Grid) (x page b a r : ℕ) (ha : a ≠ x) :
    drawByte g x page b a r = g a r := by
  have h8 : List.range 8 = [0, 1, 2, 3, 4, 5, 6, 7] := rfl
  simp only [drawByte, h8, List.foldl_cons, List.foldl_nil, draw_point]
  simp [ha]

/-- Within its column, drawByte writes bit y of the byte at row
y + 8 * page of the grid. -/
theorem drawByte_at (g : Grid) (x page b y : ℕ) (hy : y < 8) :
    drawByte g x page b x (y + 8 * page) = b.testBit y := by
  have h8 : List.range 8 = [0, 1, 2, 3, 4, 5, 6, 7] := rfl
  simp only [drawByte, h8, List.foldl_cons, List.foldl_nil, draw_point]
  interval_cases y <;> simp

theorem renderBytes_cons (g : Grid) (c : Bool) (page : ℕ) (hd : ℕ × ℕ)
    (tl : List (ℕ × ℕ)) :
    renderBytes g c page (hd :: tl) =
      renderBytes (drawByte g (hd.1 + (if c then 0 else 132)) page hd.2) c page tl := rfl

/-- A fold of drawBytes leaves untouched any point whose column is not
one of the drawn columns. -/
theorem renderBytes_ne (c : Bool) (page : ℕ) :
    ∀ (l : List (ℕ × ℕ)) (g : Grid) (a r : ℕ),
      (∀ p ∈ l, a ≠ p.1 + (if c then 0 else 132)) →
      renderBytes g c page l a r = g a r := by
  intro l
  induction l with
  | nil => intro g a r _; rfl
  | cons hd tl ih =>
    intro g a r h
    rw [renderBytes_cons, ih _ _ _ (fun p hp => h p (List.mem_cons_of_mem _ hp)),
      drawByte_ne _ _ _ _ _ _ (h hd (List.mem_cons_self _ _))]

/-- Indices enumerated from k are at least k. -/
theorem enumFrom_fst_le (l : List ℕ) :
    ∀ (k : ℕ) (p : ℕ × ℕ), p ∈ l.enumFrom k → k ≤ p.1 := by
  induction l with
  | nil => intro k p h; simp [List.enumFrom] at h
  | cons b t ih =>
    intro k p h
    rcases List.mem_cons.mp h with h1 | h2
    · subst h1; exact le_rfl
    · exact Nat.le_of_succ_le (ih (k + 1) p h2)

/-- The pixel written by the enumerated-payload fold: byte j of the
payload determines the pixel in column k + j + offset, row y + 8 * page. -/
theorem renderBytes_at (c : Bool) (page : ℕ) :
    ∀ (bytes : List ℕ) (k : ℕ) (g : Grid) (j y v : ℕ),
      bytes.get? j = some v → y < 8 →
      renderBytes g c page (bytes.enumFrom k)
        (k + j + (if c then 0 else 132)) (y + 8 * page) = v.testBit y := by
  intro bytes
  induction bytes with
  | nil => intro k g j y v hj _; simp at hj
  | cons b t ih =>
    intro k g j y v hj hy
    have hcons : (b :: t).enumFrom k = (k, b) :: t.enumFrom (k + 1) := rfl
    rw [hcons, renderBytes_cons]
    cases j with
    | zero =>
      have hv : b = v := by simpa using hj
      subst hv
      rw [renderBytes_ne c page _ _ _ _ ?hne]
      case hne =>
        intro p hp
        have := enumFrom_fst_le t (k + 1) p hp
        cases c <;> simp <;> omega
      simpa using drawByte_at g (k + (if c then 0 else 132)) page b y hy
    | succ j2 =>
      have hj2 : t.get? j2 = some v := hj
      have harr : k + (j2 + 1) + (if c then 0 else 132)
          = (k + 1) + j2 + (if c then 0 else 132) := by omega
      rw [harr]
      simpa using ih (k + 1)
        (drawByte g ((k, b).1 + (if c then 0 else 132)) page (k, b).2) j2 y v hj2 hy

/-- Page lookup of a valid page code 176 + p. -/
theorem listIndex_pages (p : ℕ) (hp : p < 8) : listIndex (176 + p) pages = some p := by
  interval_cases p <;> rfl

/-- Page lookup of a value outside the list fails. -/
theorem listIndex_eq_none {x : ℕ} : ∀ {l : List ℕ}, x ∉ l → listIndex x l = none := by
  intro l
  induction l with
  | nil => intro _; rfl
  | cons a t ih =>
    intro h
    have ha : ¬ a = x := fun he => h (he ▸ List.mem_cons_self a t)
    rw [listIndex, if_neg ha, ih (fun hm => h (List.mem_cons_of_mem _ hm))]
    rfl

theorem sampleByte_eqv {s t : Sample} (h : eqvSample s t) :
    sampleByte s = sampleByte t := by
  obtain ⟨_, _, _, h4, h5, h6, h7, h8, h9, h10, h11⟩ := h
  simp [sampleByte, h4, h5, h6, h7, h8, h9, h10, h11]

theorem matchStart_eqv {a b a2 b2 : Sample}
    (ha : eqvSample a a2) (hb : eqvSample b b2) :
    matchStart a b = matchStart a2 b2 := by
  obtain ⟨ha1, ha2, _, _⟩ := ha
  obtain ⟨hb1, hb2, _, _⟩ := hb
  simp [matchStart, ha1, ha2, hb1, hb2]

theorem matchClk_eqv {a b a2 b2 : Sample}
    (ha : eqvSample a a2) (hb : eqvSample b b2) :
    matchClk a b = matchClk a2 b2 := by
  obtain ⟨_, _, ha3, _⟩ := ha
  obtain ⟨hb1, hb2, hb3, _⟩ := hb
  simp [matchClk, ha3, hb1, hb2, hb3]

theorem condOf_eqv (p : Phase) {a b a2 b2 : Sample}
    (ha : eqvSample a a2) (hb : eqvSample b b2) :
    condOf p a b = condOf p a2 b2 := by
  cases p <;>
    first
      | exact matchStart_eqv ha hb
      | exact matchClk_eqv ha hb

theorem afterWait_eqv (rate : ℕ) (st : DecSt) {s t : Sample} (i : ℕ)
    (h : eqvSample s t) :
    afterWait rate st s i = afterWait rate st t i := by
  have hb := sampleByte_eqv h
  obtain ⟨hc1, hc2, _, _⟩ := h
  rcases st with ⟨ph, cc, cmd, db, ps, scs⟩
  cases ph <;> simp [afterWait, hb, hc1, hc2]

theorem waitM_eqv (f : Sample → Sample → Bool)
    (hf : ∀ a b a2 b2, eqvSample a a2 → eqvSample b b2 → f a b = f a2 b2) :
    ∀ {inp inp2 : List Sample}, List.Forall₂ eqvSample inp inp2 →
    ∀ (prev prev2 : Sample) (idx : ℕ), eqvSample prev prev2 →
      (waitM f prev idx inp = none ∧ waitM f prev2 idx inp2 = none) ∨
      ∃ s s2 i rest rest2,
        waitM f prev idx inp = some (s, i, rest) ∧
        waitM f prev2 idx inp2 = some (s2, i, rest2) ∧
        eqvSample s s2 ∧ List.Forall₂ eqvSample rest rest2 := by
  intro inp inp2 h
  induction h with
  | nil =>
    intro prev prev2 idx _
    exact Or.inl ⟨rfl, rfl⟩
  | @cons a b as bs hab htl ih =>
    intro prev prev2 idx hp
    have hcond : f prev a = f prev2 b := hf _ _ _ _ hp hab
    by_cases hc : f prev a = true
    · refine Or.inr ⟨a, b, idx, as, bs, ?_, ?_, hab, htl⟩
      · simp [waitM, hc]
      · simp [waitM, hcond ▸ hc]
    · have hc2 : ¬ f prev2 b = true := fun hx => hc (hcond ▸ hx)
      have := ih a b (idx + 1) hab
      simpa [waitM, hc, hc2] using this

/-- C10: the levels of the rw and e channels never influence the decoder:
runs over two sample streams that agree on cs1, cs2, clk and d0..d7 at
every position (and may differ arbitrarily on rw and e) produce identical
results: the same state transitions, command and data bytes, device
selectors, pixel writes and abort behaviour. -/
theorem c10_noninterference :
    ∀ (fuel rate : ℕ) (st : DecSt) (prev prev2 : Sample) (idx : ℕ)
      (inp inp2 : List Sample) (g : Grid) (rs : List (Bool × List ℕ × List ℕ)),
      eqvSample prev prev2 → List.Forall₂ eqvSample inp inp2 →
      runLoop rate fuel st prev idx inp g rs = runLoop rate fuel st prev2 idx inp2 g rs := by
  intro fuel
  induction fuel with
  | zero => intro rate st prev prev2 idx inp inp2 g rs _ _; rfl
  | succ n ih =>
    intro rate st prev prev2 idx inp inp2 g rs hp h
    rcases waitM_eqv (condOf (entryActions st).phase)
        (fun a b a2 b2 ha hb => condOf_eqv _ ha hb) h prev prev2 idx hp with
      ⟨h1, h2⟩ | ⟨s, s2, i, rest, rest2, h1, h2, hs, hrest⟩
    · simp only [runLoop, h1, h2]
    · simp only [runLoop, h1, h2, afterWait_eqv rate (entryActions st) i hs]
      rcases hW : afterWait rate (entryActions st) s2 i with ⟨st1, req⟩
      cases req with
      | none =>
        dsimp only
        exact ih rate st1 s s2 (i + 1) rest rest2 g rs hs hrest
      | some r =>
        dsimp only
        cases hU : updateLCD g r.1 r.2.1 r.2.2 with
        | none => rfl
        | some g2 => exact ih rate _ s s2 (i + 1) rest rest2 g2 (rs ++ [r]) hs hrest

/-- Witness for C10 at a concrete pair of streams differing only in rw, e. -/
theorem c10_noninterference_witness :
    runLoop 1000000 3 initSt lowSample 0 [filler, csB false 0, csA false 5] blankGrid [] =
    runLoop 1000000 3 initSt fillerRwE 0 [fillerRwE, csB false 0, csA false 5] blankGrid [] :=
  c10_noninterference 3 1000000 initSt lowSample fillerRwE 0
    [filler, csB false 0, csA false 5] [fillerRwE, csB false 0, csA false 5] blankGrid []
    ⟨rfl, rfl, rfl, rfl, rfl, rfl, rfl, rfl, rfl, rfl, rfl⟩
    (List.Forall₂.cons ⟨rfl, rfl, rfl, rfl, rfl, rfl, rfl, rfl, rfl, rfl, rfl⟩
      (List.Forall₂.cons ⟨rfl, rfl, rfl, rfl, rfl, rfl, rfl, rfl, rfl, rfl, rfl⟩
        (List.Forall₂.cons ⟨rfl, rfl, rfl, rfl, rfl, rfl, rfl, rfl, rfl, rfl, rfl⟩
          List.Forall₂.nil)))

/-- C1 (amended): when command[0] is outside the page-code set {176..183},
updateLCD raises before any pixel is written, so the PixelGrid is left
unchanged; but the error is an uncaught ValueError, not a recoverable
condition: it propagates out of the decode loop (see the counterexample,
where the run aborts in READ DATA instead of returning to FIND START). -/
theorem c1_unknown_page_raises (g : Grid) (dev : Bool) (command bytes : List ℕ)
    (c0 : ℕ) (hc : command.head? = some c0) (hout : c0 ∉ pages) :
    updateLCD g dev command bytes = none := by
  simp [updateLCD, hc, listIndex_eq_none hout]

/-- Witness for C1 at page byte 0 with a full 132-byte payload. -/
theorem c1_unknown_page_raises_witness :
    updateLCD blankGrid true [0, 0, 0] (List.replicate 132 0) = none :=
  c1_unknown_page_raises blankGrid true [0, 0, 0] (List.replicate 132 0) 0 rfl (by decide)

/-- C1 counterexample: a full frame whose confirmed command starts with
page byte 0.  The renderer is invoked and raises; the run aborts with the
state machine still in READ DATA and the grid untouched, contradicting
the claim that the decode loop is not aborted and returns to FIND START. -/
theorem c1_loop_abort_counterexample :
    (decodeRun 1000000 badPageTrace).aborted = true ∧
    (decodeRun 1000000 badPageTrace).st.phase = Phase.READ_DATA ∧
    (decodeRun 1000000 badPageTrace).renders =
      [(true, [0, 0, 0], List.replicate 132 0)] ∧
    (decodeRun 1000000 badPageTrace).grid = blankGrid := by
  exact ⟨by decide, by decide, by decide, rfl⟩

/-- C2 (amended): the FIND NEXT START CLK classification accepts exactly
the deltas in the OPEN interval (3.7, 4.2); both boundary values are
rejected.  On acceptance the command byte is appended and the clock count
incremented; on rejection the machine returns to FIND START. -/
theorem c2_clock_window_open (rate : ℕ) (st : DecSt) (s : Sample) (i : ℕ)
    (hph : st.phase = Phase.FIND_NEXT_START_CLK)
    (hcnt : st.clk_cnt = 1 ∨ st.clk_cnt = 2) :
    (classify_clock_period (delta_code rate st.start_clk_samplenum i) = true
        ↔ (3.7 < delta_code rate st.start_clk_samplenum i
            ∧ delta_code rate st.start_clk_samplenum i < 4.2))
    ∧ ((3.7 < delta_code rate st.start_clk_samplenum i
          ∧ delta_code rate st.start_clk_samplenum i < 4.2) →
        (afterWait rate st s i).1.command = st.command ++ [sampleByte s]
          ∧ (afterWait rate st s i).1.clk_cnt = st.clk_cnt + 1)
    ∧ (¬ (3.7 < delta_code rate st.start_clk_samplenum i
          ∧ delta_code rate st.start_clk_samplenum i < 4.2) →
        (afterWait rate st s i).1.phase = Phase.FIND_START
          ∧ (afterWait rate st s i).1.command = st.command) := by
  have hiff : classify_clock_period (delta_code rate st.start_clk_samplenum i) = true
      ↔ (3.7 < delta_code rate st.start_clk_samplenum i
          ∧ delta_code rate st.start_clk_samplenum i < 4.2) := by
    simp [classify_clock_period]
  refine ⟨hiff, ?_, ?_⟩
  · intro hacc
    have hb : classify_clock_period (delta_code rate st.start_clk_samplenum i) = true :=
      hiff.mpr hacc
    rcases hcnt with h1 | h1 <;>
      simp [afterWait, hph, hb, h1]
  · intro hrej
    cases hb : classify_clock_period (delta_code rate st.start_clk_samplenum i) with
    | true => exact absurd (hiff.mp hb) hrej
    | false =>
      rcases hcnt with h1 | h1 <;>
        simp [afterWait, hph, hb, h1]

/-- Witness for C2 at the concrete reachable state stD with delta 4.0. -/
theorem c2_clock_window_open_witness :
    (afterWait 1000000 stD lowSample 4).1.command = stD.command ++ [sampleByte lowSample]
      ∧ (afterWait 1000000 stD lowSample 4).1.clk_cnt = stD.clk_cnt + 1 :=
  (c2_clock_window_open 1000000 stD lowSample 4 rfl (Or.inl rfl)).2.1 (by decide)

/-- C2 counterexample: the claim asserts the boundary deltas 3.7 and 4.2
are accepted (closed interval); the code compares with strict
inequalities and rejects both, returning the machine to FIND START. -/
theorem c2_boundary_counterexample :
    delta_code 20000000 0 74 = 3.7 ∧
    classify_clock_period (delta_code 20000000 0 74) = false ∧
    delta_code 20000000 0 84 = 4.2 ∧
    classify_clock_period (delta_code 20000000 0 84) = false ∧
    (afterWait 20000000 stD lowSample 74).1.phase = Phase.FIND_START := by
  exact ⟨by decide, by decide, by decide, by decide, by decide⟩

/-- C3 (amended): the value the decode loop compares against its
thresholds is not the millisecond delta (b - a) * sample_period: it is
1000 times that quantity, because both get_time endpoints (already in
milliseconds) are multiplied by a further 1000 before subtracting.  The
equality delta_code = 1000 * spec_delta_ms is exact whenever the scaled
per-sample period 10^8 / rate is an integer, which holds for the sample
rate options 1 MHz, 10 MHz and 20 MHz. -/
theorem c3_delta_scale (rate m a b : ℕ) (hr : (rate : ℚ) ≠ 0)
    (hm : (m : ℚ) = 10 ^ 8 / (rate : ℚ)) :
    delta_code rate a b = 1000 * spec_delta_ms rate a b := by
  have key : ∀ n : ℕ, get_time rate n = ((n * m : ℕ) : ℚ) / 100000 := by
    intro n
    have hx : 1 / (rate : ℚ) * 1000 * (n : ℚ) * 100000 = ((n * m : ℕ) : ℚ) := by
      push_cast
      rw [hm]
      field_simp
      ring
    unfold get_time round5
    rw [hx, round_natCast]
    push_cast
    ring
  unfold delta_code spec_delta_ms
  rw [key, key]
  push_cast
  rw [hm]
  field_simp
  ring

/-- Witness for C3 at 20 MHz (m = 5) between samples 0 and 80. -/
theorem c3_delta_scale_witness :
    delta_code 20000000 0 80 = 1000 * spec_delta_ms 20000000 0 80 :=
  c3_delta_scale 20000000 5 0 80 (by norm_num) (by norm_num)

/-- C3 counterexample: between samples 0 and 80 at 20 MHz the millisecond
delta is 1/250 = 0.004 ms, but the value the classifications see is 4 —
the claim that the thresholds are applied to the millisecond quantity is
off by a factor of 1000. -/
theorem c3_units_counterexample :
    delta_code 20000000 0 80 = 4 ∧ spec_delta_ms 20000000 0 80 = 1 / 250 ∧
      ((4 : ℚ) ≠ 1 / 250) := by
  exact ⟨by decide, by decide, by decide⟩

/-- C4 (amended): payload byte j of a frame with page code 176 + p is
drawn at column j + (0 if the device selector is true, else 132), in rows
8p..8p+7 of the band — but with bit 0 of the byte on the TOP row y + 8p
with y = 0 and bit 7 on the bottom row (the byte bit string is reversed
before the row loop); a 1 bit lights the pixel. -/
theorem c4_pixel_mapping (g : Grid) (dev : Bool) (p : ℕ) (rest bytes : List ℕ)
    (j y v : ℕ) (hp : p < 8) (_hlen : bytes.length = 132)
    (hj : bytes.get? j = some v) (hy : y < 8) :
    ∃ G, updateLCD g dev ((176 + p) :: rest) bytes = some G ∧
      G (j + (if dev then 0 else 132)) (y + 8 * p) = v.testBit y := by
  refine ⟨renderBytes g dev p bytes.enum, ?_, ?_⟩
  · simp [updateLCD, listIndex_pages p hp]
  · have := renderBytes_at dev p bytes 0 g j y v hj hy
    simpa [List.enum] using this

/-- Witness for C4: page 0, byte 129 at column 0, bit 0 lights row 0. -/
theorem c4_pixel_mapping_witness :
    ∃ G, updateLCD blankGrid true ((176 + 0) :: [0, 0]) c4wbytes = some G ∧
      G (0 + (if true then 0 else 132)) (0 + 8 * 0) = (129 : ℕ).testBit 0 :=
  c4_pixel_mapping blankGrid true 0 [0, 0] c4wbytes 0 0 129 (by decide) (by decide)
    (by decide) (by decide)

/-- C4 counterexample: rendering a frame whose first payload byte is
0b00000001 lights the TOP pixel of the column (row 0) and leaves the
bottom pixel (row 7) dark — the claim predicts the opposite (bit 7 on
top, bit 0 at the bottom). -/
theorem c4_bit_order_counterexample : c4probe = some (true, false) := by decide

/-- C5 (amended): the device selector delivered to the renderer equals
(cs2 and not cs1) evaluated on the sample of the 132nd payload clock
edge, i.e. it is computed once per frame at frame COMPLETION, not fixed
at the moment decoding of the frame begins. -/
theorem c5_selector_at_completion (rate : ℕ) (st : DecSt) (s : Sample) (i : ℕ)
    (req : Bool × List ℕ × List ℕ)
    (hph : st.phase = Phase.READ_DATA)
    (hreq : (afterWait rate st s i).2 = some req) :
    req.1 = (s.cs2 && !s.cs1) ∧ st.data_bytes.length = 131 := by
  simp only [afterWait, hph, beq_iff_eq] at hreq
  by_cases hl : (st.data_bytes ++ [sampleByte s]).length = 132
  · rw [if_pos hl] at hreq
    have hq := (Option.some_inj.mp hreq).symm
    subst hq
    refine ⟨rfl, ?_⟩
    simp only [List.length_append, List.length_singleton] at hl
    omega
  · rw [if_neg hl] at hreq
    exact absurd hreq (by simp)

/-- Witness for C5: completing the frame in stR on a device-2 edge. -/
theorem c5_selector_at_completion_witness :
    c5req.1 = ((csA true 0).cs2 && !(csA true 0).cs1) ∧ stR.data_bytes.length = 131 :=
  c5_selector_at_completion 1000000 stR (csA true 0) 0 c5req rfl (by decide)

/-- C5 counterexample: in mixedTrace the start edge, all three command
clocks and the first 131 payload edges occur with cs1 asserted (so
cs2 and not cs1 is false there, including at the moment when decoding
of the frame begins), yet the selector delivered to the renderer is true,
taken from the final payload edge — so the selector is not fixed at the
moment decoding of the frame begins. -/
theorem c5_selector_counterexample :
    (decodeRun 1000000 mixedTrace).renders =
      [(true, [176, 0, 0], List.replicate 132 0)] ∧
    mixedTrace.dropLast.all (fun s => !(s.cs2 && !s.cs1)) = true := by
  exact ⟨by decide, by decide⟩

/-- C6: in READ DATA the renderer is invoked exactly when the payload
buffer reaches exactly 132 bytes, with those 132 bytes and the command
of the frame; and end to end, the full valid trace (start delta 1.0 and two
clocks 4.0 apart in code units, then 132 payload edges) yields exactly
one render and a machine back in FIND START, while the 131-edge trace
yields none. -/
theorem c6_frame_completion :
    (∀ (rate : ℕ) (st : DecSt) (s : Sample) (i : ℕ), st.phase = Phase.READ_DATA →
      (((afterWait rate st s i).2 ≠ none) ↔ st.data_bytes.length + 1 = 132) ∧
      (∀ req, (afterWait rate st s i).2 = some req →
        req.2.2 = st.data_bytes ++ [sampleByte s] ∧ req.2.2.length = 132
          ∧ req.2.1 = st.command))
    ∧ (decodeRun 1000000 fullTrace).renders = [(true, [176, 0, 0], List.replicate 132 0)]
    ∧ (decodeRun 1000000 fullTrace).st.phase = Phase.FIND_START
    ∧ (decodeRun 1000000 fullTrace).aborted = false
    ∧ (decodeRun 1000000 trace131).renders = [] := by
  refine ⟨?_, by decide, by decide, by decide, by decide⟩
  intro rate st s i hph
  constructor
  · simp only [afterWait, hph, beq_iff_eq]
    by_cases hl : (st.data_bytes ++ [sampleByte s]).length = 132
    · rw [if_pos hl]
      simp only [List.length_append, List.length_singleton] at hl
      simp [hl]
    · rw [if_neg hl]
      simp only [List.length_append, List.length_singleton] at hl
      simpa using hl
  · intro req hreq
    simp only [afterWait, hph, beq_iff_eq] at hreq
    by_cases hl : (st.data_bytes ++ [sampleByte s]).length = 132
    · rw [if_pos hl] at hreq
      have hq := (Option.some_inj.mp hreq).symm
      subst hq
      exact ⟨rfl, hl, rfl⟩
    · rw [if_neg hl] at hreq
      exact absurd hreq (by simp)

/-- Witness for C6: the 132nd byte arriving in stR triggers a render. -/
theorem c6_frame_completion_witness :
    (afterWait 1000000 stR lowSample 0).2 ≠ none :=
  ((c6_frame_completion.1 1000000 stR lowSample 0 rfl).1).mpr (by decide)

/-- C7: a FIND NEXT START CLK step whose clock-period classification
fails (on the 2nd or 3rd clock, i.e. with 1 or 2 bytes collected) returns
the machine to FIND START with fewer than 3 command bytes collected, no
render, and the FIND START entry actions then clear the in-progress
command and clock count, so nothing packed during the failed candidate
can reach a later attempt. -/
theorem c7_failed_candidate_resets (rate : ℕ) (st : DecSt) (s : Sample) (i : ℕ)
    (hph : st.phase = Phase.FIND_NEXT_START_CLK)
    (hcnt : st.clk_cnt = 1 ∨ st.clk_cnt = 2)
    (hlen : st.command.length = st.clk_cnt)
    (hfail : classify_clock_period (delta_code rate st.start_clk_samplenum i) = false) :
    (afterWait rate st s i).1.phase = Phase.FIND_START ∧
    (afterWait rate st s i).1.command = st.command ∧
    (afterWait rate st s i).1.command.length < 3 ∧
    (afterWait rate st s i).2 = none ∧
    (entryActions (afterWait rate st s i).1).command = [] ∧
    (entryActions (afterWait rate st s i).1).clk_cnt = 0 := by
  rcases hcnt with h1 | h1 <;>
    simp [afterWait, hph, hfail, h1, entryActions] <;>
    omega

/-- Witness for C7: stD (one byte collected) with a failing delta of 10. -/
theorem c7_failed_candidate_resets_witness :
    (afterWait 1000000 stD lowSample 10).1.phase = Phase.FIND_START ∧
    (afterWait 1000000 stD lowSample 10).1.command = stD.command ∧
    (afterWait 1000000 stD lowSample 10).1.command.length < 3 ∧
    (afterWait 1000000 stD lowSample 10).2 = none ∧
    (entryActions (afterWait 1000000 stD lowSample 10).1).command = [] ∧
    (entryActions (afterWait 1000000 stD lowSample 10).1).clk_cnt = 0 :=
  c7_failed_candidate_resets 1000000 stD lowSample 10 rfl (Or.inl rfl) rfl (by decide)

/-- C8: the VERIFY START classification is the strict comparison
delta < 2.40 with an exact boundary: below 2.40 the first command byte is
packed and the machine moves to FIND NEXT START CLK with the clock
reference updated; at or above 2.40 it returns to FIND START and the
entry actions leave zero accumulated bytes. -/
theorem c8_start_classification (rate : ℕ) (st : DecSt) (s : Sample) (i : ℕ)
    (hph : st.phase = Phase.VERIFY_START) (hcmd : st.command = []) :
    (delta_code rate st.potential_start i < 2.40 →
      (afterWait rate st s i).1.phase = Phase.FIND_NEXT_START_CLK ∧
      (afterWait rate st s i).1.command = [sampleByte s] ∧
      (afterWait rate st s i).1.clk_cnt = st.clk_cnt + 1 ∧
      (afterWait rate st s i).1.start_clk_samplenum = i)
    ∧ (2.40 ≤ delta_code rate st.potential_start i →
      (afterWait rate st s i).1.phase = Phase.FIND_START ∧
      (afterWait rate st s i).1.command = [] ∧
      (entryActions (afterWait rate st s i).1).command = [] ∧
      (entryActions (afterWait rate st s i).1).clk_cnt = 0) := by
  constructor
  · intro h
    have hb : classify_start (delta_code rate st.potential_start i) = true := by
      simp [classify_start, h]
    simp [afterWait, hph, hb, hcmd]
  · intro h
    have hb : classify_start (delta_code rate st.potential_start i) = false := by
      simp [classify_start]
      exact h
    simp [afterWait, hph, hb, hcmd, entryActions]

/-- Witness for C8: stV with candidate at sample 1 and clock at sample 2,
giving an accepted delta of 1.0. -/
theorem c8_start_classification_witness :
    (afterWait 1000000 stV (csA true 176) 2).1.phase = Phase.FIND_NEXT_START_CLK ∧
    (afterWait 1000000 stV (csA true 176) 2).1.command = [sampleByte (csA true 176)] ∧
    (afterWait 1000000 stV (csA true 176) 2).1.clk_cnt = stV.clk_cnt + 1 ∧
    (afterWait 1000000 stV (csA true 176) 2).1.start_clk_samplenum = 2 :=
  (c8_start_classification 1000000 stV (csA true 176) 2 rfl rfl).1 (by decide)

/-- C9: no partially rendered frame: for a 132-byte payload, updateLCD
either fails before writing anything (unknown page, grid unchanged) or
returns a grid in which every one of the 132 columns of the band carries
the bits of its payload byte (and the display refresh is then requested,
which the some branch models). -/
theorem c9_no_partial_frame (g : Grid) (dev : Bool) (command bytes : List ℕ)
    (hlen : bytes.length = 132) :
    updateLCD g dev command bytes = none ∨
    ∃ c0 page G, command.head? = some c0 ∧ listIndex c0 pages = some page ∧
      updateLCD g dev command bytes = some G ∧
      ∀ j y, j < 132 → y < 8 →
        G (j + (if dev then 0 else 132)) (y + 8 * page) = (bytes.getD j 0).testBit y := by
  cases hc : command.head? with
  | none => exact Or.inl (by simp [updateLCD, hc])
  | some c0 =>
    cases hpg : listIndex c0 pages with
    | none => exact Or.inl (by simp [updateLCD, hc, hpg])
    | some page =>
      refine Or.inr ⟨c0, page, renderBytes g dev page bytes.enum, rfl, hpg,
        by simp [updateLCD, hc, hpg], ?_⟩
      intro j y hj hy
      have hjl : j < bytes.length := by omega
      have hget : bytes.get? j = some (bytes.getD j 0) := by
        rw [List.get?_eq_getElem?, List.getElem?_eq_getElem hjl]
        simp [List.getD_eq_getElem?_getD, List.getElem?_eq_getElem hjl]
      have := renderBytes_at dev page bytes 0 g j y (bytes.getD j 0) hget hy
      simpa [List.enum] using this

/-- Witness for C9 at an unknown page code with a 132-byte payload. -/
theorem c9_no_partial_frame_witness :
    updateLCD blankGrid true [0, 0, 0] (List.replicate 132 5) = none ∨
    ∃ c0 page G, ([0, 0, 0] : List ℕ).head? = some c0 ∧ listIndex c0 pages = some page ∧
      updateLCD blankGrid true [0, 0, 0] (List.replicate 132 5) = some G ∧
      ∀ j y, j < 132 → y < 8 →
        G (j + (if true then 0 else 132)) (y + 8 * page)
          = ((List.replicate 132 5).getD j 0).testBit y :=
  c9_no_partial_frame blankGrid true [0, 0, 0] (List.replicate 132 5) (by decide)

end LCDDecoder
